import Mathlib

/-!
Verification of the LLM response-validation and version-range resolution core
of the vulnerablecode-ai-experiments repository (src/agent/__init__.py).

The repository is a thin façade over an external LLM call: it validates the
model's structured JSON output against one of two pydantic schemas (`Purl`,
`Versions`) and post-processes the result, either parsing a Package URL with
the external `packageurl` library or resolving version-constraint strings into
ecosystem-specific range objects through the external `univers` library
(`RANGE_CLASS_BY_SCHEMES[eco].from_string("vers:eco/" + c)`).

The model call itself is non-deterministic and external; it is embedded as an
oracle function supplied by the caller, whose JSON result is then validated
exactly as the code does.  All string processing is embedded over `List Char`
(`String.data`) so that every definition evaluates inside the kernel.
-/

/-! ## Character-list string helpers -/

/-- Split a character list at every occurrence of the separator character. -/
def chSplitOn (sep : Char) : List Char → List (List Char)
  | [] => [[]]
  | c :: rest =>
    let r := chSplitOn sep rest
    if c = sep then [] :: r
    else match r with
      | [] => [[c]]
      | g :: gs => (c :: g) :: gs

/-- Split a character list at the first occurrence of the separator, returning
the part before it and, when the separator occurs, the part after it. -/
def splitOnceCh (sep : Char) : List Char → List Char × Option (List Char)
  | [] => ([], none)
  | c :: rest =>
    if c = sep then ([], some rest)
    else
      let (pre, post) := splitOnceCh sep rest
      (c :: pre, post)

/-- If the first argument is a prefix of the second, return the remainder. -/
def dropPre : List Char → List Char → Option (List Char)
  | [], l => some l
  | _ :: _, [] => none
  | p :: ps, c :: cs => if c = p then dropPre ps cs else none

/-- Remove leading and trailing whitespace. -/
def trimCh (l : List Char) : List Char :=
  ((l.dropWhile Char.isWhitespace).reverse.dropWhile Char.isWhitespace).reverse

/-- ASCII lower-casing of one character. -/
def chLower (c : Char) : Char :=
  if 'A' ≤ c ∧ c ≤ 'Z' then Char.ofNat (c.toNat + 32) else c

/-! ## Package URL parsing

Modelled from the spec: PURL syntactic validation is delegated by the code to
the external `packageurl` library (`PackageURL.from_string`), which is not part
of this repository; the spec gives its grammar as
`scheme:type/namespace/name@version?qualifiers#subpath` with `scheme` fixed to
`pkg`, `name` and `type` required and the rest optional. -/

/-- A parsed Package URL.  The source attribute `namespace` is a Lean keyword
and is embedded as `namespc`. -/
structure PackageURL where
  type : String
  namespc : Option String
  name : String
  version : Option String
  qualifiers : Option String
  subpath : Option String
deriving DecidableEq, Repr

/-- Modelled from the spec: parse of the PURL grammar, following
`PackageURL.from_string` of the external `packageurl` library: require the
`pkg:` scheme, strip leading slashes, split off `#subpath`, `?qualifiers` and
`@version`, then read `type/namespace.../name`; `type` and `name` must be
non-empty and the package type is lower-cased. -/
def purlFromChars (l : List Char) : Option PackageURL :=
  match dropPre "pkg:".data l with
  | none => none
  | some rem0 =>
    let rem := rem0.dropWhile (· = '/')
    let (beforeHash, subp) := splitOnceCh '#' rem
    let (beforeQ, qual) := splitOnceCh '?' beforeHash
    let (core, ver) := splitOnceCh '@' beforeQ
    match (chSplitOn '/' core).reverse with
    | [] => none
    | [_] => none
    | nm :: revRest =>
      match revRest.reverse with
      | [] => none
      | t :: nsegs =>
        if t.isEmpty || nm.isEmpty || nsegs.any List.isEmpty then none
        else some {
          type := String.mk (t.map chLower)
          namespc :=
            if nsegs.isEmpty then none
            else some (String.mk (List.intercalate ['/'] nsegs))
          name := String.mk nm
          version := match ver with
            | some v => if v.isEmpty then none else some (String.mk v)
            | none => none
          qualifiers := qual.map String.mk
          subpath := subp.map String.mk }

/-- `PackageURL.from_string` on a whole string. -/
def purlFromString (s : String) : Option PackageURL := purlFromChars s.data

/-! ## Version ranges (external `univers` library)

Modelled from the spec: range resolution is delegated by the code to the
external `univers` library, whose `RANGE_CLASS_BY_SCHEMES` registry maps an
ecosystem identifier to a range class; that class's `from_string` parses a
`vers:<scheme>/<constraints>` expression into a range object, failing when the
expression or any version in it is malformed. -/

/-- Comparator of a single version constraint (`=`, `!=`, `<`, `<=`, `>`, `>=`). -/
inductive VersComparator
  | veq | vne | vlt | vle | vgt | vge
deriving DecidableEq, Repr

/-- One version constraint: a comparator applied to a version string. -/
structure VersionConstraint where
  comparator : VersComparator
  version : String
deriving DecidableEq, Repr

/-- Body of a `vers` range: either the universal range `*` or a non-empty
list of constraints. -/
inductive VersConstraintsSpec
  | star
  | constraints (cs : List VersionConstraint)
deriving DecidableEq, Repr

/-- A resolved, ecosystem-specific version range object. -/
structure VersionRange where
  scheme : String
  body : VersConstraintsSpec
deriving DecidableEq, Repr

/-- Modelled from the spec: version validity under an ecosystem's versioning
scheme is defined by the external `univers` version classes.  We model the
plain-release grammar `N(.N)*` with an optional leading `v` (the subset of
PEP 440 exercised by the spec's scenarios); every version string this
development evaluates concretely is either in this subset or — like
`"Not Fixed"` and `"not-a-version"`, which contain spaces or letters — also
invalid under the full external grammar. -/
def pypiVersionValid (l : List Char) : Bool :=
  let l := match l with
    | 'v' :: rest => rest
    | _ => l
  let segs := chSplitOn '.' l
  !segs.isEmpty && segs.all (fun seg => !seg.isEmpty && seg.all Char.isDigit)

/-- Modelled from the spec: the per-ecosystem version grammar; only the pypi
grammar is exercised concretely, and the other registered schemes are modelled
with the same conservative release grammar. -/
def versionValid (_scheme : String) (v : List Char) : Bool := pypiVersionValid v

/-- Read an optional comparator from the front of a constraint. -/
def parseComparator : List Char → VersComparator × List Char
  | '>' :: '=' :: rest => (.vge, rest)
  | '<' :: '=' :: rest => (.vle, rest)
  | '!' :: '=' :: rest => (.vne, rest)
  | '>' :: rest => (.vgt, rest)
  | '<' :: rest => (.vlt, rest)
  | '=' :: rest => (.veq, rest)
  | l => (.veq, l)

/-- Parse one version constraint: trim, read the comparator, and require a
non-empty version valid under the scheme's version grammar. -/
def versionConstraintFromChars (scheme : String) (l : List Char) :
    Option VersionConstraint :=
  let l := trimCh l
  let (c, v) := parseComparator l
  if !v.isEmpty && versionValid scheme v then some ⟨c, String.mk v⟩ else none

/-- Modelled from the spec: `from_string` of the range class registered for
`scheme`: the expression must start with `vers:`, name exactly that scheme
before the first `/`, and carry either `*` or a non-empty `|`-separated list
of parseable constraints. -/
def versRangeFromChars (scheme : String) (l : List Char) : Option VersionRange :=
  match dropPre "vers:".data l with
  | none => none
  | some rest =>
    match splitOnceCh '/' rest with
    | (_, none) => none
    | (sch, some constraintsChars) =>
      if String.mk sch = scheme then
        let cstr := trimCh constraintsChars
        if cstr.isEmpty then none
        else if cstr = ['*'] then some ⟨scheme, .star⟩
        else
          let parts := (chSplitOn '|' cstr).filter (fun p => !(trimCh p).isEmpty)
          if parts.isEmpty then none
          else match parts.mapM (versionConstraintFromChars scheme) with
            | some cs => some ⟨scheme, .constraints cs⟩
            | none => none
      else none

/-- `RANGE_CLASS_BY_SCHEMES[scheme].from_string s` on a whole string. -/
def versRangeFromString (scheme : String) (s : String) : Option VersionRange :=
  versRangeFromChars scheme s.data

/-- Modelled from the spec: the key set of the `RANGE_CLASS_BY_SCHEMES`
registry of the external `univers` library — the ecosystem identifiers with a
registered range-parsing algorithm. -/
def RANGE_CLASS_BY_SCHEMES : List String :=
  ["alpm", "apache", "cargo", "composer", "conan", "deb", "ebuild", "gem",
   "generic", "github", "gitlab", "golang", "hex", "mattermost", "maven",
   "mozilla", "nginx", "npm", "nuget", "openssl", "pypi", "rpm"]

/-- Whether an ecosystem identifier has a registered range class (a successful
dictionary lookup in `RANGE_CLASS_BY_SCHEMES`). -/
def registeredEcosystem (e : String) : Bool := RANGE_CLASS_BY_SCHEMES.contains e

/-! ## Structured model output and pydantic validation

The model's structured output is a JSON value; the code hands it to pydantic,
which validates it against `Purl` (a single `string` field holding a valid
PURL) or `Versions` (fields `affected_versions` and `fixed_versions`, each a
list of strings).  pydantic's default model configuration ignores unknown
fields, so extra keys are dropped rather than rejected. -/

/-- A JSON value, the raw structured output of a model call. -/
inductive JsonValue
  | null
  | bool (b : Bool)
  | num (n : Int)
  | str (s : String)
  | arr (elems : List JsonValue)
  | obj (fields : List (String × JsonValue))
deriving Repr

/-- Field lookup: the value of `key` when the JSON value is an object
containing it. -/
def jsonGet (j : JsonValue) (key : String) : Option JsonValue :=
  match j with
  | .obj fields => fields.lookup key
  | _ => none

/-- Read a JSON array of strings as a `List String`; fails on a non-array or
on any non-string element (pydantic `List[str]` coerces neither). -/
def asStrings : List JsonValue → Option (List String)
  | [] => some []
  | .str s :: rest => (asStrings rest).map (s :: ·)
  | _ :: _ => none

/-- Validation of one field annotated `List[str]`. -/
def asStringList : JsonValue → Option (List String)
  | .arr elems => asStrings elems
  | _ => none

/-- Convenience constructor: a JSON array of strings. -/
def JsonValue.strArr (l : List String) : JsonValue := .arr (l.map .str)

/-- pydantic validation of the `Purl` model (schema A): the output must carry
a `string` field holding a string that parses under the PURL grammar — the
`check_valid_purl` field validator calls `PackageURL.from_string` and raises
on failure.  Unknown extra fields are ignored (pydantic default config).
Returns the validated raw string. -/
def Purl.validate (j : JsonValue) : Option String :=
  match jsonGet j "string" with
  | some (.str s) => if (purlFromChars s.data).isSome then some s else none
  | _ => none

/-- pydantic validation of the `Versions` model (schema B): the output must
carry `affected_versions` and `fixed_versions`, each a list of strings.
Unknown extra fields are ignored (pydantic default config). -/
def Versions.validate (j : JsonValue) : Option (List String × List String) :=
  match jsonGet j "affected_versions", jsonGet j "fixed_versions" with
  | some ja, some jf =>
    match asStringList ja, asStringList jf with
    | some a, some f => some (a, f)
    | _, _ => none
  | _, _ => none

/-! ## Range resolution and the façade pipeline -/

/-- Failures of the range-resolution step: a failed registry lookup
(`KeyError` on `RANGE_CLASS_BY_SCHEMES`, the spec's
`UnsupportedEcosystemError`) or a failed `from_string` parse (the spec's
`MalformedRangeError`). -/
inductive RangeError
  | unsupportedEcosystem
  | malformedRange
deriving DecidableEq, Repr

/-- Failures of a façade call: failed pydantic validation of the model output
(the spec's `SchemaValidationError`) or a range-resolution failure. -/
inductive AgentError
  | schemaValidation
  | unsupportedEcosystem
  | malformedRange
deriving DecidableEq, Repr

/-- A `RangeError` propagates out of a façade call unchanged. -/
def RangeError.toAgentError : RangeError → AgentError
  | .unsupportedEcosystem => .unsupportedEcosystem
  | .malformedRange => .malformedRange

/-- The list comprehension of `get_version_ranges`:
`[RANGE_CLASS_BY_SCHEMES[eco].from_string("vers:" + eco + "/" + c) for c in cs]`.
The registry lookup sits inside the comprehension body, so it is evaluated
once per element; the first exception aborts the whole comprehension with no
partial list. -/
def resolveRanges (supported_ecosystem : String) :
    List String → Except RangeError (List VersionRange)
  | [] => .ok []
  | c :: rest =>
    if registeredEcosystem supported_ecosystem then
      match versRangeFromString supported_ecosystem
          ("vers:" ++ supported_ecosystem ++ "/" ++ c) with
      | some r => (resolveRanges supported_ecosystem rest).map (fun rs => r :: rs)
      | none => .error .malformedRange
    else .error .unsupportedEcosystem

/-- Body of `VulnerabilitySummaryParser.get_version_ranges` applied to the
model output: validate against `Versions`, then resolve the affected list and
the fixed list, in that order. -/
def getVersionRangesOnOutput (modelOutput : JsonValue)
    (supported_ecosystem : String) :
    Except AgentError (List VersionRange × List VersionRange) :=
  match Versions.validate modelOutput with
  | none => .error .schemaValidation
  | some (affected_version_ranges, fixed_version_ranges) =>
    match resolveRanges supported_ecosystem affected_version_ranges with
    | .error e => .error e.toAgentError
    | .ok affected_version_objs =>
      match resolveRanges supported_ecosystem fixed_version_ranges with
      | .error e => .error e.toAgentError
      | .ok fixed_version_objs => .ok (affected_version_objs, fixed_version_objs)

/-- Body of `get_purl` (identical on both façades) applied to the model
output: validate against `Purl`, then return
`PackageURL.from_string(result.output.string)` — the parse of the raw
validated string, with nothing applied between validation and return. -/
def getPurlOnOutput (modelOutput : JsonValue) : Except AgentError PackageURL :=
  match Purl.validate modelOutput with
  | none => .error .schemaValidation
  | some s =>
    match purlFromChars s.data with
    | some p => .ok p
    | none => .error .schemaValidation

/-! ## The façade classes

The model connection and the agents are configuration records fixed at
construction; the non-deterministic external model call is an oracle function
`run_sync` supplied by the caller, which the methods apply to the instance's
agent handle.  Methods are embedded with explicit state passing (they return
the instance alongside the result), mirroring that the Python methods never
assign to `self`. -/

/-- The process-wide configuration read from the environment at import time. -/
structure EnvConfig where
  OLLAMA_MODEL_NAME : Option String
  OLLAMA_BASE_URL : Option String
  OPENAI_API_KEY : Option String
  OPENAI_MODEL_NAME : Option String
deriving DecidableEq, Repr

/-- Python truthiness of an optional environment string: set and non-empty. -/
def envTruthy : Option String → Bool
  | some s => !s.isEmpty
  | none => false

/-- The model-connection handle (`OpenAIModel` with its provider settings). -/
structure OpenAIModel where
  model_name : Option String
  provider_base_url : Option String
  provider_api_key : Option String
deriving DecidableEq, Repr

/-- An agent handle: the model plus the fixed system prompt and settings
(`temperature=0, seed=42`).  Prompt text is opaque out-of-scope content and is
carried as a tag. -/
structure Agent where
  model : OpenAIModel
  system_prompt : String
  temperature : Nat
  seed : Nat
deriving DecidableEq, Repr

/-- `if OLLAMA_MODEL_NAME and OLLAMA_BASE_URL:` — choose the local endpoint
when both are truthy, the hosted endpoint otherwise. -/
def selectModel (cfg : EnvConfig) : OpenAIModel :=
  if envTruthy cfg.OLLAMA_MODEL_NAME && envTruthy cfg.OLLAMA_BASE_URL then
    { model_name := cfg.OLLAMA_MODEL_NAME
      provider_base_url := cfg.OLLAMA_BASE_URL
      provider_api_key := none }
  else
    { model_name := cfg.OPENAI_MODEL_NAME
      provider_base_url := none
      provider_api_key := cfg.OPENAI_API_KEY }

/-- The summary-parsing façade: a model handle and two agents. -/
structure VulnerabilitySummaryParser where
  model : OpenAIModel
  purl_agent : Agent
  versions_agent : Agent
deriving DecidableEq, Repr

/-- `VulnerabilitySummaryParser.__init__`. -/
def VulnerabilitySummaryParser.init (cfg : EnvConfig) : VulnerabilitySummaryParser :=
  let model := selectModel cfg
  { model
    purl_agent := ⟨model, "prompt_purl_from_summary", 0, 42⟩
    versions_agent := ⟨model, "prompt_version_from_summary", 0, 42⟩ }

/-- `get_version_ranges(self, summary, supported_ecosystem)`: run the versions
agent on the summary, then validate and resolve. -/
def VulnerabilitySummaryParser.get_version_ranges
    (self : VulnerabilitySummaryParser) (run_sync : Agent → String → JsonValue)
    (summary : String) (supported_ecosystem : String) :
    VulnerabilitySummaryParser ×
      Except AgentError (List VersionRange × List VersionRange) :=
  let result := run_sync self.versions_agent summary
  (self, getVersionRangesOnOutput result supported_ecosystem)

/-- `get_purl(self, summary)` on the summary façade. -/
def VulnerabilitySummaryParser.get_purl (self : VulnerabilitySummaryParser)
    (run_sync : Agent → String → JsonValue) (summary : String) :
    VulnerabilitySummaryParser × Except AgentError PackageURL :=
  let result := run_sync self.purl_agent summary
  (self, getPurlOnOutput result)

/-- The CPE-parsing façade: a model handle and one agent. -/
structure CPEParser where
  model : OpenAIModel
  purl_agent : Agent
deriving DecidableEq, Repr

/-- `CPEParser.__init__`. -/
def CPEParser.init (cfg : EnvConfig) : CPEParser :=
  let model := selectModel cfg
  { model, purl_agent := ⟨model, "prompt_purl_from_cpe", 0, 42⟩ }

/-- `get_purl(self, cpe)` on the CPE façade. -/
def CPEParser.get_purl (self : CPEParser)
    (run_sync : Agent → String → JsonValue) (cpe : String) :
    CPEParser × Except AgentError PackageURL :=
  let result := run_sync self.purl_agent cpe
  (self, getPurlOnOutput result)

instance {ε α : Type} [DecidableEq ε] [DecidableEq α] : DecidableEq (Except ε α) :=
  fun x y =>
    match x, y with
    | .ok a, .ok b =>
      if h : a = b then .isTrue (by rw [h]) else .isFalse (by simp [h])
    | .error a, .error b =>
      if h : a = b then .isTrue (by rw [h]) else .isFalse (by simp [h])
    | .ok _, .error _ => .isFalse (by simp)
    | .error _, .ok _ => .isFalse (by simp)

section SanityChecks

example : purlFromString "pkg:pypi/django@4.2.0" =
    some ⟨"pypi", none, "django", some "4.2.0", none, none⟩ := by decide

example : purlFromString "not a purl" = none := by decide

example : versRangeFromString "pypi" "vers:pypi/>=1.2.3" =
    some ⟨"pypi", .constraints [⟨.vge, "1.2.3"⟩]⟩ := by decide

example : versRangeFromString "pypi" "vers:pypi/Not Fixed" = none := by decide

example : versRangeFromString "pypi" "vers:pypi/not-a-version" = none := by decide

example : registeredEcosystem "pypi" = true := by decide

example : registeredEcosystem "cobol" = false := by decide

example : resolveRanges "pypi" [">=1.2.3", "<2.0.0"] =
    .ok [⟨"pypi", .constraints [⟨.vge, "1.2.3"⟩]⟩,
         ⟨"pypi", .constraints [⟨.vlt, "2.0.0"⟩]⟩] := by decide

example : resolveRanges "pypi" [] = .ok [] := by decide

example : resolveRanges "cobol" ["1.0"] = .error .unsupportedEcosystem := by decide

example : resolveRanges "pypi" ["not-a-version"] = .error .malformedRange := by decide

example : getVersionRangesOnOutput
    (.obj [("affected_versions", .strArr [">=1.2.3", "<2.0.0"]),
           ("fixed_versions", .strArr ["2.0.0"])]) "pypi" =
    .ok ([⟨"pypi", .constraints [⟨.vge, "1.2.3"⟩]⟩,
          ⟨"pypi", .constraints [⟨.vlt, "2.0.0"⟩]⟩],
         [⟨"pypi", .constraints [⟨.veq, "2.0.0"⟩]⟩]) := by decide

example : getVersionRangesOnOutput
    (.obj [("affected_versions", .strArr []),
           ("fixed_versions", .strArr ["Not Fixed"])]) "pypi" =
    .error .malformedRange := by decide

example : getPurlOnOutput (.obj [("string", .str "pkg:pypi/django@4.2.0")]) =
    .ok ⟨"pypi", none, "django", some "4.2.0", none, none⟩ := by decide

example : getPurlOnOutput (.obj []) = .error .schemaValidation := by decide

end SanityChecks

/-! ## Helper lemmas -/

theorem resolveRanges_map (e : String) (f : String → VersionRange) :
    ∀ cs : List String, registeredEcosystem e = true →
      (∀ c ∈ cs, versRangeFromString e ("vers:" ++ e ++ "/" ++ c) = some (f c)) →
      resolveRanges e cs = .ok (cs.map f)
  | [], _, _ => rfl
  | c :: cs, hreg, hp => by
    have hc := hp c (List.mem_cons_self c cs)
    have ih := resolveRanges_map e f cs hreg fun x hx => hp x (List.mem_cons_of_mem _ hx)
    simp [resolveRanges, hreg, hc, ih, Except.map]

theorem resolveRanges_unregistered (e c : String) (cs : List String)
    (h : registeredEcosystem e = false) :
    resolveRanges e (c :: cs) = .error .unsupportedEcosystem := by
  simp [resolveRanges, h]

theorem resolveRanges_malformed (e : String) :
    ∀ (cs : List String) (c : String), registeredEcosystem e = true → c ∈ cs →
      versRangeFromString e ("vers:" ++ e ++ "/" ++ c) = none →
      resolveRanges e cs = .error .malformedRange
  | [], c, _, hc, _ => absurd hc (List.not_mem_nil c)
  | a :: cs, c, hreg, hc, hbad => by
    rcases List.mem_cons.mp hc with h | h
    · subst h
      simp [resolveRanges, hreg, hbad]
    · have ih := resolveRanges_malformed e cs c hreg h hbad
      cases ha : versRangeFromString e ("vers:" ++ e ++ "/" ++ a) with
      | none => simp [resolveRanges, hreg, ha]
      | some r => simp [resolveRanges, hreg, ha, ih, Except.map]

theorem resolveRanges_not_unsupported (e : String) :
    ∀ cs : List String, registeredEcosystem e = true →
      resolveRanges e cs ≠ .error .unsupportedEcosystem
  | [], _ => by simp [resolveRanges]
  | c :: cs, hreg => by
    have ih := resolveRanges_not_unsupported e cs hreg
    cases hc : versRangeFromString e ("vers:" ++ e ++ "/" ++ c) with
    | none => simp [resolveRanges, hreg, hc]
    | some r =>
      cases hr : resolveRanges e cs with
      | ok rs => simp [resolveRanges, hreg, hc, hr, Except.map]
      | error err =>
        rw [hr] at ih
        simp [resolveRanges, hreg, hc, hr, Except.map]
        intro h
        exact ih (by rw [h])

theorem resolveRanges_error_malformed (e : String) (cs : List String)
    (hreg : registeredEcosystem e = true) (err : RangeError)
    (h : resolveRanges e cs = .error err) : err = .malformedRange := by
  cases err with
  | malformedRange => rfl
  | unsupportedEcosystem => exact absurd h (resolveRanges_not_unsupported e cs hreg)

theorem asStrings_map_str : ∀ l : List String, asStrings (l.map .str) = some l
  | [] => rfl
  | s :: l => by simp [asStrings, asStrings_map_str l]

theorem asStringList_strArr (l : List String) :
    asStringList (JsonValue.strArr l) = some l := by
  simp [asStringList, JsonValue.strArr, asStrings_map_str]

/-- Resolution applied to the pypi scheme, as a function; used to state witness
instances of mapping theorems. -/
def pypiParse (c : String) : VersionRange :=
  (versRangeFromString "pypi" ("vers:pypi/" ++ c)).getD ⟨"pypi", .star⟩

/-! ## Claims -/

/-- C1: for every registered ecosystem identifier and every list of constraint
strings (including the empty list), the range-resolution step of
`get_version_ranges` returns exactly one resolved range per input, in input
order, the i-th output being the parse of `"vers:" + e + "/" + ci` under the
ecosystem's registered range class; no deduplication or merging occurs, and
the empty input yields the empty sequence. -/
theorem C1_resolution_maps_inputs_in_order (e : String) (cs : List String)
    (f : String → VersionRange)
    (hreg : registeredEcosystem e = true)
    (hparse : ∀ c ∈ cs,
      versRangeFromString e ("vers:" ++ e ++ "/" ++ c) = some (f c)) :
    resolveRanges e cs = .ok (cs.map f) ∧ resolveRanges e [] = .ok [] :=
  ⟨resolveRanges_map e f cs hreg hparse, rfl⟩

theorem C1_witness :
    resolveRanges "pypi" [">=1.2.3", "<2.0.0"] =
      .ok ([">=1.2.3", "<2.0.0"].map pypiParse) ∧
    resolveRanges "pypi" [] = .ok [] :=
  C1_resolution_maps_inputs_in_order "pypi" [">=1.2.3", "<2.0.0"] pypiParse
    (by decide) (by decide)

/-- C2: with a registered ecosystem, a constraint list containing at least one
string that does not parse under the ecosystem's range grammar makes
`get_version_ranges` fail with `MalformedRangeError` and return no partial
output; and failed schema-B validation of the model output likewise fails the
whole call, so no `(affectedRanges, fixedRanges)` pair is returned in either
case. -/
theorem C2_any_malformed_constraint_fails_whole_call (j : JsonValue) (e : String) :
    (Versions.validate j = none →
      getVersionRangesOnOutput j e = .error .schemaValidation) ∧
    (∀ affected fixd c, Versions.validate j = some (affected, fixd) →
      registeredEcosystem e = true → c ∈ affected ++ fixd →
      versRangeFromString e ("vers:" ++ e ++ "/" ++ c) = none →
      getVersionRangesOnOutput j e = .error .malformedRange) := by
  constructor
  · intro h
    simp [getVersionRangesOnOutput, h]
  · intro affected fixd c hval hreg hmem hbad
    rcases List.mem_append.mp hmem with hA | hF
    · have hres := resolveRanges_malformed e affected c hreg hA hbad
      simp [getVersionRangesOnOutput, hval, hres, RangeError.toAgentError]
    · cases hr : resolveRanges e affected with
      | error err =>
        have herr := resolveRanges_error_malformed e affected hreg err hr
        subst herr
        simp [getVersionRangesOnOutput, hval, hr, RangeError.toAgentError]
      | ok affObjs =>
        have hres := resolveRanges_malformed e fixd c hreg hF hbad
        simp [getVersionRangesOnOutput, hval, hr, hres, RangeError.toAgentError]

theorem C2_witness :
    getVersionRangesOnOutput
      (.obj [("affected_versions", .strArr ["not-a-version"]),
             ("fixed_versions", .strArr ["2.0.0"])]) "pypi" =
      .error .malformedRange :=
  (C2_any_malformed_constraint_fails_whole_call
      (.obj [("affected_versions", .strArr ["not-a-version"]),
             ("fixed_versions", .strArr ["2.0.0"])]) "pypi").2
    ["not-a-version"] ["2.0.0"] "not-a-version" rfl (by decide) (by decide) rfl

/-- C3: for every model output whose `string` field is a syntactically valid
Package URL `s`, `get_purl` returns the `PackageIdentifier` obtained by
parsing `s` under the PURL grammar — the parse of the raw validated string,
with nothing applied between validation and return. -/
theorem C3_get_purl_returns_parse_of_validated_string (j : JsonValue)
    (s : String) (p : PackageURL)
    (hfield : jsonGet j "string" = some (.str s))
    (hparse : purlFromChars s.data = some p) :
    getPurlOnOutput j = .ok p := by
  have hv : Purl.validate j = some s := by
    simp [Purl.validate, hfield, hparse]
  simp [getPurlOnOutput, hv, hparse]

theorem C3_witness :
    getPurlOnOutput (.obj [("string", .str "pkg:pypi/django@4.2.0")]) =
      .ok ⟨"pypi", none, "django", some "4.2.0", none, none⟩ :=
  C3_get_purl_returns_parse_of_validated_string
    (.obj [("string", .str "pkg:pypi/django@4.2.0")])
    "pkg:pypi/django@4.2.0" ⟨"pypi", none, "django", some "4.2.0", none, none⟩
    rfl rfl

/-- C4: when the `string` field of the raw model output is absent, is not a
string, or does not parse under the PURL grammar, schema-A validation fails
with `SchemaValidationError` and no `PackageIdentifier` is produced; in
particular the empty object fails because `string` is missing. -/
theorem C4_schema_a_failure_modes (j : JsonValue) :
    (jsonGet j "string" = none →
      getPurlOnOutput j = .error .schemaValidation) ∧
    (∀ v, jsonGet j "string" = some v → (∀ s, v ≠ .str s) →
      getPurlOnOutput j = .error .schemaValidation) ∧
    (∀ s, jsonGet j "string" = some (.str s) → purlFromChars s.data = none →
      getPurlOnOutput j = .error .schemaValidation) := by
  refine ⟨fun h => ?_, fun v hv hns => ?_, fun s hv hparse => ?_⟩
  · simp [getPurlOnOutput, Purl.validate, h]
  · have hval : Purl.validate j = none := by
      cases v
      case str s => exact absurd rfl (hns s)
      all_goals simp [Purl.validate, hv]
    simp [getPurlOnOutput, hval]
  · simp [getPurlOnOutput, Purl.validate, hv, hparse]

theorem C4_witness :
    getPurlOnOutput (.obj []) = .error .schemaValidation :=
  (C4_schema_a_failure_modes (.obj [])).1 rfl

/-- C5: schema-B validation fails when `affected_versions` or
`fixed_versions` is missing or is not a sequence of strings, and succeeds on
two present string sequences (each possibly empty), returning the two
sequences unchanged. -/
theorem C5_schema_b_validation (j : JsonValue) (a f : List String) :
    ((jsonGet j "affected_versions" = none ∨
      jsonGet j "fixed_versions" = none ∨
      (∃ v, jsonGet j "affected_versions" = some v ∧ asStringList v = none) ∨
      (∃ v, jsonGet j "fixed_versions" = some v ∧ asStringList v = none)) →
      Versions.validate j = none) ∧
    (jsonGet j "affected_versions" = some (.strArr a) →
     jsonGet j "fixed_versions" = some (.strArr f) →
     Versions.validate j = some (a, f)) := by
  constructor
  · rintro (h | h | ⟨v, hv, hnone⟩ | ⟨v, hv, hnone⟩)
    · cases hB : jsonGet j "fixed_versions" <;> simp [Versions.validate, h, hB]
    · cases hA : jsonGet j "affected_versions" <;> simp [Versions.validate, h, hA]
    · cases hB : jsonGet j "fixed_versions" <;>
        simp [Versions.validate, hv, hB, hnone]
    · cases hA : jsonGet j "affected_versions" with
      | none => simp [Versions.validate, hA]
      | some w =>
        cases hw : asStringList w <;>
          simp [Versions.validate, hA, hv, hw, hnone]
  · intro hA hB
    simp [Versions.validate, hA, hB, asStringList_strArr]

theorem C5_witness :
    Versions.validate (.obj [("affected_versions", .strArr [">=1.2.3"]),
      ("fixed_versions", .strArr [])]) = some ([">=1.2.3"], []) :=
  (C5_schema_b_validation
      (.obj [("affected_versions", .strArr [">=1.2.3"]),
             ("fixed_versions", .strArr [])]) [">=1.2.3"] []).2 rfl rfl

/-- C6: an ecosystem identifier with no registered range-parsing algorithm
makes resolution of any non-empty constraint list fail with
`UnsupportedEcosystemError`, regardless of the content of the constraints,
before any range object is produced. -/
theorem C6_unregistered_ecosystem_fails (e c : String) (cs : List String)
    (h : registeredEcosystem e = false) :
    resolveRanges e (c :: cs) = .error .unsupportedEcosystem :=
  resolveRanges_unregistered e c cs h

theorem C6_witness :
    resolveRanges "cobol" ["totally *!? invalid"] =
      .error .unsupportedEcosystem :=
  C6_unregistered_ecosystem_fails "cobol" "totally *!? invalid" [] (by decide)

/-- C7 (counterexample): a model output carrying a valid `string` field plus
an additional field, contrary to the claim, passes schema-A validation; a
model output carrying `affected_versions` and `fixed_versions` plus an
additional field likewise passes schema-B validation — pydantic's default
configuration ignores unknown fields instead of rejecting them. -/
theorem C7_counterexample :
    Purl.validate (.obj [("string", .str "pkg:pypi/django@4.2.0"),
      ("confidence", .str "high")]) = some "pkg:pypi/django@4.2.0" ∧
    Versions.validate (.obj [("affected_versions", .strArr [">=1.2.3"]),
      ("fixed_versions", .strArr []), ("confidence", .str "high")]) =
      some ([">=1.2.3"], []) :=
  ⟨rfl, rfl⟩

/-- C7 (amended): schema A requires a valid `string` field but ignores any
additional fields, and schema B requires the two version-list fields but
ignores any additional fields: validation succeeds and the extra fields are
dropped. -/
theorem C7_extra_fields_are_ignored (s : String)
    (rest : List (String × JsonValue)) (a f : List String)
    (hs : (purlFromChars s.data).isSome = true) :
    Purl.validate (.obj (("string", .str s) :: rest)) = some s ∧
    Versions.validate (.obj (("affected_versions", .strArr a) ::
      ("fixed_versions", .strArr f) :: rest)) = some (a, f) := by
  constructor
  · simp [Purl.validate, jsonGet, List.lookup, hs]
  · have h1 : (("fixed_versions" : String) == "affected_versions") = false := by
      decide
    simp [Versions.validate, jsonGet, List.lookup, h1, asStringList_strArr]

theorem C7_amended_witness :
    Purl.validate (.obj [("string", .str "pkg:npm/lodash@4.17.21"),
      ("note", .str "extra")]) = some "pkg:npm/lodash@4.17.21" ∧
    Versions.validate (.obj [("affected_versions", .strArr ["<2.0.0"]),
      ("fixed_versions", .strArr ["2.0.0"]), ("note", .str "extra")]) =
      some (["<2.0.0"], ["2.0.0"]) :=
  C7_extra_fields_are_ignored "pkg:npm/lodash@4.17.21" [("note", .str "extra")]
    ["<2.0.0"] ["2.0.0"] rfl

/-- C8 (code evaluated at the failing input): the prompt instructs the model
to emit the literal `"Not Fixed"` for the fixed set, but `get_version_ranges`
unconditionally resolves every fixed entry, and `vers:pypi/Not Fixed` is not a
well-formed range under the registered pypi scheme, so the call fails with
`MalformedRangeError` instead of succeeding as the claim states. -/
theorem C8_not_fixed_literal_is_rejected :
    getVersionRangesOnOutput
      (.obj [("affected_versions", .strArr []),
             ("fixed_versions", .strArr ["Not Fixed"])]) "pypi" =
      .error .malformedRange ∧
    registeredEcosystem "pypi" = true ∧
    versRangeFromString "pypi" "vers:pypi/Not Fixed" = none := by
  refine ⟨by decide, by decide, by decide⟩

/-- C9: every façade operation returns the instance unchanged — the instance
holds only the model-connection state established at construction and no
per-call mutable state, so successive calls on the same instance observe the
same instance state. -/
theorem C9_facade_calls_leave_instance_unchanged
    (p : VulnerabilitySummaryParser) (q : CPEParser)
    (run_sync : Agent → String → JsonValue)
    (summary text cpe eco : String) :
    (p.get_version_ranges run_sync summary eco).1 = p ∧
    (p.get_purl run_sync text).1 = p ∧
    (q.get_purl run_sync cpe).1 = q :=
  ⟨rfl, rfl, rfl⟩

/-- C10: when the validated affected and fixed lists are both empty,
`get_version_ranges` returns a pair of empty sequences and does not fail, for
any ecosystem identifier — including one with no registered range class,
because the registry lookup sits inside the per-element comprehension body and
is never evaluated on an empty list. -/
theorem C10_empty_lists_skip_ecosystem_lookup (j : JsonValue) (e : String)
    (hval : Versions.validate j = some ([], [])) :
    getVersionRangesOnOutput j e = .ok ([], []) := by
  simp [getVersionRangesOnOutput, hval, resolveRanges]

theorem C10_witness :
    registeredEcosystem "cobol" = false ∧
    getVersionRangesOnOutput (.obj [("affected_versions", .strArr []),
      ("fixed_versions", .strArr [])]) "cobol" = .ok ([], []) :=
  ⟨by decide,
   C10_empty_lists_skip_ecosystem_lookup
     (.obj [("affected_versions", .strArr []), ("fixed_versions", .strArr [])])
     "cobol" rfl⟩
